import Mathlib

/-!
Verification of the query execution and marshalling engine of the datatool
repository (src/src-tauri/src/db/postgres.rs and
src/src-tauri/src/commands/explain.rs), as a shallow embedding.

Modelling conventions:
* JSON values (serde_json::Value) are the inductive type Json below.  JSON
  numbers are JNum: either an exact signed integer (the serde i64
  constructors) or a double, where the double type F64 is abstract: only its
  finiteness flag matters to the code (serde_json::Number::from_f64 returns
  None exactly on non-finite input).
* A PgRow is a list of columns paired with cells.  The sqlx typed
  row.try_get::<T,_>(i) is modelled by Option-valued fields of PgCell: the
  field is some v when the typed extraction succeeds and none when it fails
  (type mismatch, unexpected NULL, decode error).  The i32/i64 extraction
  results are range-restricted subtypes, as in Rust.
* The external database engine is the structure Db.  Rows returned for a SQL
  text are given by the oracle execSql; the catalog queries issued by
  fetch_tables / fetch_columns are modelled by the catalog fields, already in
  the order the issued ORDER BY clauses guarantee; the contents of a table
  scanned by fetch_table_data are given by Db.tables, and the engine semantics
  of SELECT COUNT(*) and LIMIT/OFFSET over those contents are evalLimitOffset
  and List.length.
* PostgresManager state (pool: RwLock<Option<PgPool>>, connection_id) is an
  explicit record threaded through the operations.  Pool.close() is recorded
  in the ghost field closedPools, so that "the old pool was closed" is
  observable in the final state.
* i32 arithmetic in fetch_table_data uses twos-complement wrap-around
  (wrap32), the release-profile Rust semantics of overflow.
-/

/-- An f64 as far as this code observes it: the finiteness bit decides whether
serde_json::Number::from_f64 accepts it; code is an abstract identity of the
bit pattern. -/
structure F64 where
  finite : Bool
  code : Nat
deriving DecidableEq, Repr

/-- A serde_json number: an exact signed integer or a double. -/
inductive JNum where
  | int (n : Int)
  | double (f : F64)
deriving DecidableEq, Repr

/-- serde_json::Value. -/
inductive Json where
  | null
  | bool (b : Bool)
  | num (n : JNum)
  | str (s : String)
  | arr (xs : List Json)
  | obj (kvs : List (String × Json))

/-- serde_json::Number::from_f64: some number exactly when the input is
finite. -/
def numberFromF64 (v : F64) : Option JNum :=
  if v.finite then some (JNum.double v) else none

/-- Value.get with a usize index: element lookup on arrays, none otherwise. -/
def Json.getIdx : Json → Nat → Option Json
  | .arr xs, i => xs.get? i
  | .null, _ | .bool _, _ | .num _, _ | .str _, _ | .obj _, _ => none

/-- Value.get with a string key: first-match lookup on objects, none
otherwise. -/
def Json.getKey : Json → String → Option Json
  | .obj kvs, k => (kvs.find? (fun kv => kv.fst == k)).map Prod.snd
  | .null, _ | .bool _, _ | .num _, _ | .str _, _ | .arr _, _ => none

/-- Value.as_f64: the number when the value is a number, none otherwise. -/
def Json.asF64 : Json → Option JNum
  | .num n => some n
  | _ => none

/-- A value in the 32-bit signed range, the result type of try_get::<i32,_>. -/
abbrev I32 := { n : Int // -(2 ^ 31) ≤ n ∧ n < 2 ^ 31 }

/-- A value in the 64-bit signed range, the result type of try_get::<i64,_>. -/
abbrev I64 := { n : Int // -(2 ^ 63) ≤ n ∧ n < 2 ^ 63 }

/-- A uuid::Uuid, identified with its canonical textual form (to_string). -/
structure Uuid where
  canon : String
deriving DecidableEq, Repr

/-- One result cell, exposing the typed extractions row.try_get::<T,_>(i) the
coercion layer attempts: a field is some v when that extraction succeeds. -/
structure PgCell where
  getBool : Option Bool
  getI32 : Option I32
  getI64 : Option I64
  getF64 : Option F64
  getJson : Option Json
  getUuid : Option Uuid
  getString : Option String

/-- Column metadata carried by a PgRow: name and declared type name
(col.name(), col.type_info().name()). -/
structure PgColumn where
  name : String
  typeName : String
deriving DecidableEq, Repr

/-- A sqlx PgRow: columns with their cells, in result order. -/
structure PgRow where
  cols : List (PgColumn × PgCell)

/-- The per-column body of row_to_json_values: dispatch on the declared type
name, with every extraction failure degrading to null (unwrap_or(Null)). -/
def coerceValue (typeName : String) (cell : PgCell) : Json :=
  if typeName = "BOOL" then (cell.getBool.map Json.bool).getD Json.null
  else if typeName = "INT2" ∨ typeName = "INT4" then
    (cell.getI32.map (fun v => Json.num (JNum.int v.val))).getD Json.null
  else if typeName = "INT8" then
    (cell.getI64.map (fun v => Json.num (JNum.int v.val))).getD Json.null
  else if typeName = "FLOAT4" ∨ typeName = "FLOAT8" then
    (cell.getF64.map
      (fun v => ((numberFromF64 v).map Json.num).getD Json.null)).getD Json.null
  else if typeName = "JSON" ∨ typeName = "JSONB" then cell.getJson.getD Json.null
  else if typeName = "UUID" then
    (cell.getUuid.map (fun v => Json.str v.canon)).getD Json.null
  else (cell.getString.map Json.str).getD Json.null

/-- row_to_json_values: coerce every column of the row, in column order. -/
def row_to_json_values (row : PgRow) : List Json :=
  row.cols.map (fun pc => coerceValue pc.fst.typeName pc.snd)

theorem row_to_json_values_length (row : PgRow) :
    (row_to_json_values row).length = row.cols.length := by
  simp [row_to_json_values]

/-- PostgresError (thiserror enum). -/
inductive PostgresError where
  | ConnectionFailed (msg : String)
  | QueryFailed (msg : String)
  | NoActiveConnection
  | Sqlx (msg : String)
deriving DecidableEq, Repr

/-- The Display strings produced by the thiserror derive. -/
def PostgresError.toString : PostgresError → String
  | .ConnectionFailed m => "Connection failed: " ++ m
  | .QueryFailed m => "Query execution failed: " ++ m
  | .NoActiveConnection => "No active connection"
  | .Sqlx m => "SQLx error: " ++ m

/-- TableInfo. -/
structure TableInfo where
  schema : String
  name : String
  table_type : String
deriving DecidableEq, Repr

/-- ColumnInfo. -/
structure ColumnInfo where
  name : String
  data_type : String
  is_nullable : Bool
  column_default : Option String
  is_primary_key : Bool
deriving DecidableEq, Repr

/-- ColumnMeta. -/
structure ColumnMeta where
  name : String
  data_type : String
deriving DecidableEq, Repr

/-- QueryResult. -/
structure QueryResult where
  columns : List ColumnMeta
  rows : List (List Json)
  row_count : Nat
  affected_rows : Option Nat

/-- PaginatedResult. -/
structure PaginatedResult where
  columns : List ColumnMeta
  rows : List (List Json)
  total_count : Int
  page : Int
  page_size : Int

/-- An abstract identity of one built PgPool. -/
structure PoolId where
  id : Nat
deriving DecidableEq, Repr

/-- PostgresManager state: pool and connection_id as in the source, plus the
ghost history closedPools recording every pool on which close() was called. -/
structure PostgresManager where
  pool : Option PoolId
  connection_id : Option String
  closedPools : List PoolId
deriving DecidableEq, Repr

/-- One row of the information_schema.columns query issued by fetch_columns
(column_name, data_type, is_nullable, column_default). -/
structure CatalogColumn where
  name : String
  data_type : String
  is_nullable : String
  column_default : Option String
deriving DecidableEq, Repr

/-- The external PostgreSQL engine, as the code observes it.  execSql is the
oracle for arbitrary SQL texts (successful transport gives the result rows,
error gives the diagnostic string).  The catalog fields model the metadata
queries of fetch_tables / fetch_columns, listed already in the order their
ORDER BY clauses guarantee (tables by schema then name, columns by ordinal
position).  tables gives the full contents of a base table, scanned by the
COUNT(*) and LIMIT/OFFSET statements of fetch_table_data. -/
structure Db where
  execSql : String → Except String (List PgRow)
  tables : String → String → List PgRow
  tablesCatalog : List (String × String × String)
  columnsCatalog : String → String → List CatalogColumn
  pkCatalog : String → String → List String

/-- PostgresManager::new. -/
def PostgresManager.new : PostgresManager :=
  { pool := none, connection_id := none, closedPools := [] }

/-- PostgresManager::disconnect: close the pool if present (recorded in the
ghost history), then clear the identity. -/
def PostgresManager.disconnect (m : PostgresManager) : PostgresManager :=
  match m.pool with
  | some p =>
    { pool := none, connection_id := none, closedPools := m.closedPools ++ [p] }
  | none => { m with connection_id := none }

/-- The connection string built by connect. -/
def connection_string (user password host : String) (port : Nat)
    (database : String) : String :=
  "postgres://" ++ user ++ ":" ++ password ++ "@" ++ host ++ ":" ++
    Nat.repr port ++ "/" ++ database

/-- PostgresManager::connect.  The PgPoolOptions::connect transport attempt is
the parameter connector: ok p means a pool p was built, error e the underlying
transport error text.  Returns the call result and the post-state. -/
def PostgresManager.connect (m : PostgresManager) (connection_id : String)
    (connector : Except String PoolId) :
    Except PostgresError Unit × PostgresManager :=
  let m1 := m.disconnect
  match connector with
  | .error e => (.error (PostgresError.ConnectionFailed e), m1)
  | .ok p =>
    (.ok (), { m1 with pool := some p, connection_id := some connection_id })

/-- PostgresManager::get_connection_id. -/
def PostgresManager.get_connection_id (m : PostgresManager) : Option String :=
  m.connection_id

/-- PostgresManager::test_connection: fetch_one on SELECT 1. -/
def PostgresManager.test_connection (m : PostgresManager) (db : Db) :
    Except PostgresError Bool :=
  match m.pool with
  | none => .error PostgresError.NoActiveConnection
  | some _ =>
    match db.execSql "SELECT 1" with
    | .error e => .error (PostgresError.QueryFailed e)
    | .ok [] =>
      .error (PostgresError.QueryFailed
        "no rows returned by a query that expected to return at least one row")
    | .ok (_ :: _) => .ok true

/-- PostgresManager::execute_query. -/
def PostgresManager.execute_query (m : PostgresManager) (db : Db)
    (sql : String) : Except PostgresError QueryResult :=
  match m.pool with
  | none => .error PostgresError.NoActiveConnection
  | some _ =>
    match db.execSql sql with
    | .error e => .error (PostgresError.QueryFailed e)
    | .ok rows =>
      match rows with
      | [] => .ok { columns := [], rows := [], row_count := 0, affected_rows := none }
      | first :: rest =>
        let columns : List ColumnMeta :=
          first.cols.map (fun pc =>
            { name := pc.fst.name, data_type := pc.fst.typeName })
        let json_rows : List (List Json) :=
          (first :: rest).map row_to_json_values
        .ok { columns := columns, rows := json_rows,
              row_count := json_rows.length, affected_rows := none }

/-- PostgresManager::fetch_tables: the information_schema.tables query,
already ordered by (table_schema, table_name). -/
def PostgresManager.fetch_tables (m : PostgresManager) (db : Db) :
    Except PostgresError (List TableInfo) :=
  match m.pool with
  | none => .error PostgresError.NoActiveConnection
  | some _ =>
    .ok (db.tablesCatalog.map (fun t =>
      { schema := t.fst, name := t.snd.fst, table_type := t.snd.snd }))

/-- PostgresManager::fetch_columns: the ordinal-ordered columns query, then
the primary-key constraint query, merged by pk_columns.contains(&col.name). -/
def PostgresManager.fetch_columns (m : PostgresManager) (db : Db)
    (schema table : String) : Except PostgresError (List ColumnInfo) :=
  match m.pool with
  | none => .error PostgresError.NoActiveConnection
  | some _ =>
    let columns : List ColumnInfo :=
      (db.columnsCatalog schema table).map (fun c =>
        { name := c.name, data_type := c.data_type,
          is_nullable := c.is_nullable == "YES",
          column_default := c.column_default, is_primary_key := false })
    let pk_columns : List String := db.pkCatalog schema table
    .ok (columns.map (fun col =>
      { col with is_primary_key := pk_columns.contains col.name }))

/-- Twos-complement wrap of an integer to the 32-bit signed range, the
release-profile semantics of Rust i32 arithmetic. -/
def wrap32 (n : Int) : Int := (n + 2 ^ 31) % 2 ^ 32 - 2 ^ 31

/-- Engine semantics of SELECT * FROM tbl LIMIT limit OFFSET offset: Postgres
rejects negative LIMIT and OFFSET, otherwise returns the bounded slice. -/
def evalLimitOffset (tbl : List PgRow) (limit offset : Int) :
    Except String (List PgRow) :=
  if limit < 0 then .error "LIMIT must not be negative"
  else if offset < 0 then .error "OFFSET must not be negative"
  else .ok ((tbl.drop offset.toNat).take limit.toNat)

/-- PostgresManager::fetch_table_data.  The two issued statements are
SELECT COUNT(*) FROM "schema"."table" (modelled as the table length) and
SELECT * FROM "schema"."table" LIMIT page_size OFFSET offset (modelled by
evalLimitOffset); offset = (page - 1) * page_size in i32 arithmetic. -/
def PostgresManager.fetch_table_data (m : PostgresManager) (db : Db)
    (schema table : String) (page page_size : Int) :
    Except PostgresError PaginatedResult :=
  match m.pool with
  | none => .error PostgresError.NoActiveConnection
  | some _ =>
    let offset := wrap32 (wrap32 (page - 1) * page_size)
    let tbl := db.tables schema table
    let total_count : Int := Int.ofNat tbl.length
    match evalLimitOffset tbl page_size offset with
    | .error e => .error (PostgresError.QueryFailed e)
    | .ok rows =>
      match rows with
      | [] =>
        .ok { columns := [], rows := [], total_count := total_count,
              page := page, page_size := page_size }
      | first :: rest =>
        let columns : List ColumnMeta :=
          first.cols.map (fun pc =>
            { name := pc.fst.name, data_type := pc.fst.typeName })
        let json_rows : List (List Json) :=
          (first :: rest).map row_to_json_values
        .ok { columns := columns, rows := json_rows,
              total_count := total_count, page := page, page_size := page_size }

/-- query_as::<_,(JsonValue,)>(..).fetch_one: error on zero rows, otherwise
decode the first column of the first row as JSON. -/
def fetchOneJson : List PgRow → Except String Json
  | [] =>
    .error "no rows returned by a query that expected to return at least one row"
  | row :: _ =>
    match row.cols with
    | [] => .error "column index out of bounds"
    | pc :: _ =>
      match pc.snd.getJson with
      | some j => .ok j
      | none => .error "error occurred while decoding column 0"

/-- PostgresManager::explain_query: wrap the statement and fetch the single
JSON plan row. -/
def PostgresManager.explain_query (m : PostgresManager) (db : Db)
    (sql : String) : Except PostgresError Json :=
  match m.pool with
  | none => .error PostgresError.NoActiveConnection
  | some _ =>
    let explain_sql := "EXPLAIN (ANALYZE, FORMAT JSON, VERBOSE, BUFFERS) " ++ sql
    match db.execSql explain_sql with
    | .error e => .error (PostgresError.QueryFailed e)
    | .ok rows =>
      match fetchOneJson rows with
      | .error e => .error (PostgresError.QueryFailed e)
      | .ok j => .ok j

/-- ExplainResult (commands/explain.rs); the Option<f64> timing fields hold
the JSON numbers extracted from the plan. -/
structure ExplainResult where
  plan : Json
  planning_time : Option JNum
  execution_time : Option JNum
  total_cost : Option JNum

/-- The explain_query tauri command: run the analyzed explain, then read the
optional timing and cost fields from the plan. -/
def Commands.explain_query (m : PostgresManager) (db : Db) (sql : String) :
    Except String ExplainResult :=
  match m.explain_query db sql with
  | .error e => .error e.toString
  | .ok plan =>
    let planning_time :=
      ((plan.getIdx 0).bind (fun p => p.getKey "Planning Time")).bind Json.asF64
    let execution_time :=
      ((plan.getIdx 0).bind (fun p => p.getKey "Execution Time")).bind Json.asF64
    let total_cost :=
      (((plan.getIdx 0).bind (fun p => p.getKey "Plan")).bind
        (fun p => p.getKey "Total Cost")).bind Json.asF64
    .ok { plan := plan, planning_time := planning_time,
          execution_time := execution_time, total_cost := total_cost }

/-- The explain_query_no_analyze tauri command: execute the non-executing
EXPLAIN through execute_query and take the first column of the first row. -/
def Commands.explain_query_no_analyze (m : PostgresManager) (db : Db)
    (sql : String) : Except String Json :=
  match m.execute_query db ("EXPLAIN (FORMAT JSON, VERBOSE) " ++ sql) with
  | .error e => .error e.toString
  | .ok qr =>
    match qr.rows.head? with
    | some row =>
      match row.head? with
      | some plan => .ok plan
      | none => .error "Failed to parse EXPLAIN output"
    | none => .error "Failed to parse EXPLAIN output"

/-- C1: for every row and column index, value coercion dispatches on the
declared type name; the output matches the declared JSON tag (BOOL → boolean,
INT2/INT4 → number in the 32-bit signed domain, INT8 → 64-bit signed number,
FLOAT4/FLOAT8 → number or null for non-finite values, JSON/JSONB → passed
through as-is, UUID → canonical textual string, anything else → string), it
is total, and every per-column extraction failure degrades to null. -/
theorem C1_coercion_tag_correct (row : PgRow) (i : Nat) (pc : PgColumn)
    (cell : PgCell) (h : row.cols.get? i = some (pc, cell)) :
    (row_to_json_values row).get? i = some (coerceValue pc.typeName cell) ∧
    (pc.typeName = "BOOL" →
      (coerceValue pc.typeName cell = Json.null ∨
        ∃ b, coerceValue pc.typeName cell = Json.bool b) ∧
      (cell.getBool = none → coerceValue pc.typeName cell = Json.null)) ∧
    ((pc.typeName = "INT2" ∨ pc.typeName = "INT4") →
      (coerceValue pc.typeName cell = Json.null ∨
        ∃ n : Int, coerceValue pc.typeName cell = Json.num (JNum.int n) ∧
          -(2 ^ 31) ≤ n ∧ n < 2 ^ 31) ∧
      (cell.getI32 = none → coerceValue pc.typeName cell = Json.null)) ∧
    (pc.typeName = "INT8" →
      (coerceValue pc.typeName cell = Json.null ∨
        ∃ n : Int, coerceValue pc.typeName cell = Json.num (JNum.int n) ∧
          -(2 ^ 63) ≤ n ∧ n < 2 ^ 63) ∧
      (cell.getI64 = none → coerceValue pc.typeName cell = Json.null)) ∧
    ((pc.typeName = "FLOAT4" ∨ pc.typeName = "FLOAT8") →
      (coerceValue pc.typeName cell = Json.null ∨
        ∃ f : F64, f.finite = true ∧
          coerceValue pc.typeName cell = Json.num (JNum.double f)) ∧
      (∀ v, cell.getF64 = some v → v.finite = false →
        coerceValue pc.typeName cell = Json.null) ∧
      (cell.getF64 = none → coerceValue pc.typeName cell = Json.null)) ∧
    ((pc.typeName = "JSON" ∨ pc.typeName = "JSONB") →
      (∀ j, cell.getJson = some j → coerceValue pc.typeName cell = j) ∧
      (cell.getJson = none → coerceValue pc.typeName cell = Json.null)) ∧
    (pc.typeName = "UUID" →
      (∀ u, cell.getUuid = some u →
        coerceValue pc.typeName cell = Json.str u.canon) ∧
      (cell.getUuid = none → coerceValue pc.typeName cell = Json.null)) ∧
    (pc.typeName ∉ ["BOOL", "INT2", "INT4", "INT8", "FLOAT4", "FLOAT8",
        "JSON", "JSONB", "UUID"] →
      (coerceValue pc.typeName cell = Json.null ∨
        ∃ s, coerceValue pc.typeName cell = Json.str s) ∧
      (cell.getString = none → coerceValue pc.typeName cell = Json.null)) := by
  refine ⟨?_, ?_, ?_, ?_, ?_, ?_, ?_, ?_⟩
  · have h2 : row.cols[i]? = some (pc, cell) := by
      simpa [List.get?_eq_getElem?] using h
    simp [row_to_json_values, List.get?_eq_getElem?, List.getElem?_map, h2]
  · intro ht
    constructor
    · cases hb : cell.getBool with
      | none => left; simp [coerceValue, ht, hb]
      | some b => right; exact ⟨b, by simp [coerceValue, ht, hb]⟩
    · intro hb; simp [coerceValue, ht, hb]
  · intro ht
    have ht2 : pc.typeName ≠ "BOOL" := by rcases ht with h1 | h1 <;> simp [h1]
    constructor
    · cases hb : cell.getI32 with
      | none => left; simp [coerceValue, ht, ht2, hb]
      | some v =>
        right
        exact ⟨v.val, by simp [coerceValue, ht, ht2, hb], v.property.1, v.property.2⟩
    · intro hb; simp [coerceValue, ht, ht2, hb]
  · intro ht
    constructor
    · cases hb : cell.getI64 with
      | none => left; simp [coerceValue, ht, hb]
      | some v =>
        right
        exact ⟨v.val, by simp [coerceValue, ht, hb], v.property.1, v.property.2⟩
    · intro hb; simp [coerceValue, ht, hb]
  · intro ht
    have ht2 : pc.typeName ≠ "BOOL" ∧ pc.typeName ≠ "INT2" ∧
        pc.typeName ≠ "INT4" ∧ pc.typeName ≠ "INT8" := by
      rcases ht with h1 | h1 <;> simp [h1]
    refine ⟨?_, ?_, ?_⟩
    · cases hb : cell.getF64 with
      | none => left; simp [coerceValue, ht, ht2, hb]
      | some v =>
        cases hv : v.finite with
        | false =>
          left
          simp [coerceValue, ht, ht2, hb, numberFromF64, hv]
        | true =>
          right
          exact ⟨v, hv, by simp [coerceValue, ht, ht2, hb, numberFromF64, hv]⟩
    · intro v hb hv; simp [coerceValue, ht, ht2, hb, numberFromF64, hv]
    · intro hb; simp [coerceValue, ht, ht2, hb]
  · intro ht
    have ht2 : pc.typeName ≠ "BOOL" ∧ pc.typeName ≠ "INT2" ∧
        pc.typeName ≠ "INT4" ∧ pc.typeName ≠ "INT8" ∧
        pc.typeName ≠ "FLOAT4" ∧ pc.typeName ≠ "FLOAT8" := by
      rcases ht with h1 | h1 <;> simp [h1]
    constructor
    · intro j hb; simp [coerceValue, ht, ht2, hb]
    · intro hb; simp [coerceValue, ht, ht2, hb]
  · intro ht
    constructor
    · intro u hb; simp [coerceValue, ht, hb]
    · intro hb; simp [coerceValue, ht, hb]
  · intro ht
    simp only [List.mem_cons, List.mem_singleton, not_or] at ht
    obtain ⟨n1, n2, n3, n4, n5, n6, n7, n8, n9, -⟩ := ht
    constructor
    · cases hb : cell.getString with
      | none => left; simp [coerceValue, n1, n2, n3, n4, n5, n6, n7, n8, n9, hb]
      | some s =>
        right
        exact ⟨s, by simp [coerceValue, n1, n2, n3, n4, n5, n6, n7, n8, n9, hb]⟩
    · intro hb; simp [coerceValue, n1, n2, n3, n4, n5, n6, n7, n8, n9, hb]

/-- A cell holding a successful boolean extraction, used as witness input. -/
def cellBoolW : PgCell :=
  { getBool := some true, getI32 := none, getI64 := none, getF64 := none,
    getJson := none, getUuid := none, getString := none }

/-- A one-column BOOL row, used as witness input. -/
def rowBoolW : PgRow :=
  { cols := [({ name := "active", typeName := "BOOL" }, cellBoolW)] }

/-- Witness for C1 at a concrete BOOL row: the coerced row has the coerced
cell at index 0, and the coercion produces a boolean. -/
theorem C1_coercion_tag_correct_witness :
    rowBoolW.cols.get? 0 =
      some ({ name := "active", typeName := "BOOL" }, cellBoolW) ∧
    (row_to_json_values rowBoolW).get? 0 =
      some (coerceValue "BOOL" cellBoolW) ∧
    coerceValue "BOOL" cellBoolW = Json.bool true := by
  refine ⟨rfl, ?_, rfl⟩
  exact (C1_coercion_tag_correct rowBoolW 0
    { name := "active", typeName := "BOOL" } cellBoolW rfl).1

theorem execute_query_pool_none (m : PostgresManager) (db : Db) (sql : String)
    (hp : m.pool = none) :
    m.execute_query db sql = .error PostgresError.NoActiveConnection := by
  simp [PostgresManager.execute_query, hp]

theorem execute_query_ok_nil (m : PostgresManager) (db : Db) (sql : String)
    (p : PoolId) (hp : m.pool = some p) (hq : db.execSql sql = .ok []) :
    m.execute_query db sql =
      .ok { columns := [], rows := [], row_count := 0, affected_rows := none } := by
  simp [PostgresManager.execute_query, hp, hq]

theorem execute_query_ok_cons (m : PostgresManager) (db : Db) (sql : String)
    (p : PoolId) (first : PgRow) (rest : List PgRow)
    (hp : m.pool = some p) (hq : db.execSql sql = .ok (first :: rest)) :
    m.execute_query db sql =
      .ok { columns := first.cols.map (fun pc =>
              { name := pc.fst.name, data_type := pc.fst.typeName }),
            rows := (first :: rest).map row_to_json_values,
            row_count := ((first :: rest).map row_to_json_values).length,
            affected_rows := none } := by
  simp [PostgresManager.execute_query, hp, hq]

theorem execute_query_ok_inv (m : PostgresManager) (db : Db) (sql : String)
    (r : QueryResult) (h : m.execute_query db sql = .ok r) :
    ∃ p rows, m.pool = some p ∧ db.execSql sql = .ok rows ∧
      ((rows = [] ∧
        r = { columns := [], rows := [], row_count := 0, affected_rows := none }) ∨
       (∃ first rest, rows = first :: rest ∧
        r = { columns := first.cols.map (fun pc =>
                { name := pc.fst.name, data_type := pc.fst.typeName }),
              rows := (first :: rest).map row_to_json_values,
              row_count := ((first :: rest).map row_to_json_values).length,
              affected_rows := none })) := by
  cases hp : m.pool with
  | none => rw [execute_query_pool_none m db sql hp] at h; cases h
  | some p =>
    cases hq : db.execSql sql with
    | error e => simp [PostgresManager.execute_query, hp, hq] at h
    | ok rows =>
      cases rows with
      | nil =>
        rw [execute_query_ok_nil m db sql p hp hq] at h
        cases h
        exact ⟨p, [], rfl, rfl, Or.inl ⟨rfl, rfl⟩⟩
      | cons first rest =>
        rw [execute_query_ok_cons m db sql p first rest hp hq] at h
        cases h
        exact ⟨p, first :: rest, rfl, rfl, Or.inr ⟨first, rest, rfl, rfl⟩⟩

/-- C3: a statement whose execution returns zero rows makes execute_query
succeed with zero column descriptors, zero rows and row_count = 0; and on
this code path affected_rows is always null, rows or no rows. -/
theorem C3_execute_query_empty_result (m : PostgresManager) (db : Db)
    (sql : String) :
    (∀ r, m.execute_query db sql = .ok r → r.affected_rows = none) ∧
    (m.pool.isSome = true → db.execSql sql = .ok [] →
      m.execute_query db sql =
        .ok { columns := [], rows := [], row_count := 0,
              affected_rows := none }) := by
  constructor
  · intro r hr
    obtain ⟨p, rows, hp, hq, hcase⟩ := execute_query_ok_inv m db sql r hr
    rcases hcase with ⟨-, rfl⟩ | ⟨first, rest, -, rfl⟩ <;> rfl
  · intro hp hq
    obtain ⟨p, hp2⟩ := Option.isSome_iff_exists.mp hp
    exact execute_query_ok_nil m db sql p hp2 hq

/-- Manager and engine used as the C3 witness input. -/
def mgrActiveW : PostgresManager :=
  { pool := some { id := 0 }, connection_id := some "conn-1", closedPools := [] }

/-- An engine whose every statement returns zero rows, used as witness
input. -/
def dbEmptyW : Db :=
  { execSql := fun _ => .ok [], tables := fun _ _ => [], tablesCatalog := [],
    columnsCatalog := fun _ _ => [], pkCatalog := fun _ _ => [] }

/-- Witness for C3 at a concrete zero-row statement. -/
theorem C3_execute_query_empty_result_witness :
    mgrActiveW.pool.isSome = true ∧
    dbEmptyW.execSql "UPDATE t SET x = 1" = .ok [] ∧
    mgrActiveW.execute_query dbEmptyW "UPDATE t SET x = 1" =
      .ok { columns := [], rows := [], row_count := 0, affected_rows := none } ∧
    ({ columns := [], rows := [], row_count := 0,
       affected_rows := none } : QueryResult).affected_rows = none := by
  have h := C3_execute_query_empty_result mgrActiveW dbEmptyW "UPDATE t SET x = 1"
  have h2 := h.2 rfl rfl
  exact ⟨rfl, rfl, h2, h.1 _ h2⟩

/-- C7: with no active pool, every data operation fails fast with
NoActiveConnection, for every engine (so no query work is performed). -/
theorem C7_no_active_connection_fail_fast (m : PostgresManager) (db : Db)
    (sql schema table : String) (page page_size : Int)
    (h : m.pool = none) :
    m.execute_query db sql = .error PostgresError.NoActiveConnection ∧
    m.fetch_tables db = .error PostgresError.NoActiveConnection ∧
    m.fetch_columns db schema table = .error PostgresError.NoActiveConnection ∧
    m.fetch_table_data db schema table page page_size =
      .error PostgresError.NoActiveConnection ∧
    m.explain_query db sql = .error PostgresError.NoActiveConnection ∧
    m.test_connection db = .error PostgresError.NoActiveConnection := by
  refine ⟨execute_query_pool_none m db sql h, ?_, ?_, ?_, ?_, ?_⟩
  · simp [PostgresManager.fetch_tables, h]
  · simp [PostgresManager.fetch_columns, h]
  · simp [PostgresManager.fetch_table_data, h]
  · simp [PostgresManager.explain_query, h]
  · simp [PostgresManager.test_connection, h]

/-- Witness for C7 on a freshly created manager. -/
theorem C7_no_active_connection_fail_fast_witness :
    PostgresManager.new.pool = none ∧
    PostgresManager.new.execute_query dbEmptyW "SELECT 1" =
      .error PostgresError.NoActiveConnection ∧
    PostgresManager.new.fetch_table_data dbEmptyW "public" "users" 1 50 =
      .error PostgresError.NoActiveConnection ∧
    PostgresManager.new.test_connection dbEmptyW =
      .error PostgresError.NoActiveConnection := by
  have h := C7_no_active_connection_fail_fast PostgresManager.new dbEmptyW
    "SELECT 1" "public" "users" 1 50 rfl
  exact ⟨rfl, h.1, h.2.2.2.1, h.2.2.2.2.2⟩

theorem disconnect_pool (m : PostgresManager) : m.disconnect.pool = none := by
  unfold PostgresManager.disconnect
  cases m.pool <;> rfl

theorem disconnect_connection_id (m : PostgresManager) :
    m.disconnect.connection_id = none := by
  unfold PostgresManager.disconnect
  cases m.pool <;> rfl

theorem disconnect_closes (m : PostgresManager) (p : PoolId)
    (h : m.pool = some p) : p ∈ m.disconnect.closedPools := by
  unfold PostgresManager.disconnect
  rw [h]
  simp

theorem connect_ok_state (m : PostgresManager) (cid : String) (p : PoolId) :
    (m.connect cid (.ok p)).snd =
      { pool := some p, connection_id := some cid,
        closedPools := m.disconnect.closedPools } := by
  unfold PostgresManager.connect
  cases hp : m.pool <;> simp [PostgresManager.disconnect, hp]

theorem disconnect_closedPools_mono (m : PostgresManager) (p : PoolId)
    (h : p ∈ m.closedPools) : p ∈ m.disconnect.closedPools := by
  unfold PostgresManager.disconnect
  cases m.pool <;> simp [h]

/-- C5: connect then disconnect leaves no connection id; disconnect is
idempotent; connect(A) then connect(B) leaves exactly identity B live with
the pool of A closed, and the pool field holds at most one pool at a time. -/
theorem C5_connection_lifecycle (m0 : PostgresManager) (idA idB : String)
    (pA pB : PoolId) :
    ((m0.connect idA (.ok pA)).snd.disconnect.get_connection_id = none) ∧
    (m0.disconnect.disconnect = m0.disconnect) ∧
    (((m0.connect idA (.ok pA)).snd.connect idB (.ok pB)).snd.pool = some pB ∧
     ((m0.connect idA (.ok pA)).snd.connect idB (.ok pB)).snd.connection_id =
       some idB ∧
     pA ∈ ((m0.connect idA (.ok pA)).snd.connect idB (.ok pB)).snd.closedPools) := by
  refine ⟨disconnect_connection_id _, ?_, ?_, ?_, ?_⟩
  · unfold PostgresManager.disconnect
    cases hp : m0.pool <;> simp
  · rw [connect_ok_state]
  · rw [connect_ok_state]
  · rw [connect_ok_state ((m0.connect idA (.ok pA)).snd) idB pB]
    exact disconnect_closes _ pA (by rw [connect_ok_state])

/-- C6: a connect that fails with ConnectionFailed (carrying the transport
error text) leaves the manager disconnected: no pool, no identity, and any
previously live pool was closed. -/
theorem C6_connect_failure_disconnects (m : PostgresManager) (cid e : String) :
    (m.connect cid (.error e)).fst =
      .error (PostgresError.ConnectionFailed e) ∧
    (m.connect cid (.error e)).snd.pool = none ∧
    (m.connect cid (.error e)).snd.get_connection_id = none ∧
    (∀ p0, m.pool = some p0 → p0 ∈ (m.connect cid (.error e)).snd.closedPools) := by
  have hstate : (m.connect cid (.error e)).snd = m.disconnect := by
    unfold PostgresManager.connect
    simp
  refine ⟨?_, ?_, ?_, ?_⟩
  · unfold PostgresManager.connect
    simp
  · rw [hstate]; exact disconnect_pool m
  · rw [hstate]
    exact disconnect_connection_id m
  · intro p0 hp0
    rw [hstate]
    exact disconnect_closes m p0 hp0

/-- A manager with a live pool, used as the C6 witness input. -/
def mgrLiveW : PostgresManager :=
  { pool := some { id := 7 }, connection_id := some "old", closedPools := [] }

/-- Witness for C6: a failed connect on a live manager reports the transport
error and ends disconnected with the old pool closed. -/
theorem C6_connect_failure_disconnects_witness :
    mgrLiveW.pool = some { id := 7 } ∧
    (mgrLiveW.connect "new" (.error "connection refused")).fst =
      .error (PostgresError.ConnectionFailed "connection refused") ∧
    (mgrLiveW.connect "new" (.error "connection refused")).snd.pool = none ∧
    (mgrLiveW.connect "new" (.error "connection refused")).snd.get_connection_id =
      none ∧
    ({ id := 7 } : PoolId) ∈
      (mgrLiveW.connect "new" (.error "connection refused")).snd.closedPools := by
  have h := C6_connect_failure_disconnects mgrLiveW "new" "connection refused"
  exact ⟨rfl, h.1, h.2.1, h.2.2.1, h.2.2.2 { id := 7 } rfl⟩

/-- C4: in every successful execute_query result, every row has exactly
len(columns) entries in column order, the columns being derived once from
the first row of a non-empty result.  The hypothesis hwf is the wire-protocol
invariant that all rows of one result set share the same column count. -/
theorem C4_row_width_invariant (m : PostgresManager) (db : Db) (sql : String)
    (r : QueryResult) (h : m.execute_query db sql = .ok r)
    (hwf : ∀ rows, db.execSql sql = .ok rows →
      ∀ row1 ∈ rows, ∀ row2 ∈ rows, row1.cols.length = row2.cols.length) :
    (∀ jr ∈ r.rows, jr.length = r.columns.length) ∧
    (∀ first rest, db.execSql sql = .ok (first :: rest) →
      r.columns = first.cols.map (fun pc =>
        { name := pc.fst.name, data_type := pc.fst.typeName }) ∧
      r.rows = (first :: rest).map row_to_json_values) := by
  obtain ⟨p, rows, hp, hq, hcase⟩ := execute_query_ok_inv m db sql r h
  rcases hcase with ⟨rfl, rfl⟩ | ⟨first, rest, rfl, rfl⟩
  · refine ⟨?_, ?_⟩
    · intro jr hjr
      simp at hjr
    · intro first rest hq2
      rw [hq] at hq2
      cases hq2
  · refine ⟨?_, ?_⟩
    · intro jr hjr
      simp only [List.mem_map] at hjr
      obtain ⟨row, hrow, rfl⟩ := hjr
      have hlen := hwf (first :: rest) hq row hrow first (List.mem_cons_self _ _)
      simp [row_to_json_values_length, hlen]
    · intro first2 rest2 hq2
      rw [hq] at hq2
      cases hq2
      exact ⟨rfl, rfl⟩

/-- An i32 cell holding 1, witness input. -/
def cellInt1W : PgCell :=
  { getBool := none, getI32 := some ⟨1, by norm_num⟩, getI64 := none,
    getF64 := none, getJson := none, getUuid := none, getString := none }

/-- An i32 cell holding 2, witness input. -/
def cellInt2W : PgCell :=
  { getBool := none, getI32 := some ⟨2, by norm_num⟩, getI64 := none,
    getF64 := none, getJson := none, getUuid := none, getString := none }

/-- A one-column INT4 row with value 1. -/
def rowInt1W : PgRow := { cols := [({ name := "id", typeName := "INT4" }, cellInt1W)] }

/-- A one-column INT4 row with value 2. -/
def rowInt2W : PgRow := { cols := [({ name := "id", typeName := "INT4" }, cellInt2W)] }

/-- An engine returning two one-column rows for every statement. -/
def dbTwoRowsW : Db :=
  { execSql := fun _ => .ok [rowInt1W, rowInt2W], tables := fun _ _ => [],
    tablesCatalog := [], columnsCatalog := fun _ _ => [],
    pkCatalog := fun _ _ => [] }

/-- The QueryResult produced for dbTwoRowsW. -/
def qrTwoW : QueryResult :=
  { columns := [{ name := "id", data_type := "INT4" }],
    rows := [[Json.num (JNum.int 1)], [Json.num (JNum.int 2)]],
    row_count := 2, affected_rows := none }

/-- Witness for C4 on a concrete two-row result. -/
theorem C4_row_width_invariant_witness :
    mgrActiveW.execute_query dbTwoRowsW "SELECT id FROM t" = .ok qrTwoW ∧
    [Json.num (JNum.int 1)].length = qrTwoW.columns.length := by
  have hws : mgrActiveW.execute_query dbTwoRowsW "SELECT id FROM t" = .ok qrTwoW := rfl
  have hwf : ∀ rows, dbTwoRowsW.execSql "SELECT id FROM t" = .ok rows →
      ∀ row1 ∈ rows, ∀ row2 ∈ rows, row1.cols.length = row2.cols.length := by
    intro rows hr
    cases hr
    have hone : ∀ row ∈ [rowInt1W, rowInt2W], row.cols.length = 1 := by
      intro row hrow
      simp only [List.mem_cons, List.not_mem_nil, or_false] at hrow
      rcases hrow with rfl | rfl <;> rfl
    intro r1 h1 r2 h2
    rw [hone r1 h1, hone r2 h2]
  have h := C4_row_width_invariant mgrActiveW dbTwoRowsW "SELECT id FROM t"
    qrTwoW hws hwf
  refine ⟨hws, h.1 [Json.num (JNum.int 1)] ?_⟩
  simp [qrTwoW]

/-- C8: fetch_columns lists descriptors in ordinal (catalog) order and the
second-pass primary-key merge sets is_primary_key exactly for the names in
the constraint result, leaving every other field unchanged. -/
theorem C8_fetch_columns_pk_merge (m : PostgresManager) (db : Db)
    (schema table : String) (l : List ColumnInfo)
    (h : m.fetch_columns db schema table = .ok l) :
    l.length = (db.columnsCatalog schema table).length ∧
    (∀ i c, (db.columnsCatalog schema table).get? i = some c →
      ∃ ci, l.get? i = some ci ∧ ci.name = c.name ∧
        ci.data_type = c.data_type ∧
        ci.is_nullable = (c.is_nullable == "YES") ∧
        ci.column_default = c.column_default ∧
        (ci.is_primary_key = true ↔ c.name ∈ db.pkCatalog schema table)) := by
  cases hp : m.pool with
  | none => simp [PostgresManager.fetch_columns, hp] at h
  | some p =>
    have hl : l = ((db.columnsCatalog schema table).map (fun c =>
        ({ name := c.name, data_type := c.data_type,
           is_nullable := c.is_nullable == "YES",
           column_default := c.column_default,
           is_primary_key := false } : ColumnInfo))).map (fun col =>
        { col with
          is_primary_key := (db.pkCatalog schema table).contains col.name }) := by
      have := h
      simp only [PostgresManager.fetch_columns, hp] at this
      cases this
      rfl
    subst hl
    constructor
    · simp
    · intro i c hc
      have hc2 : (db.columnsCatalog schema table)[i]? = some c := by
        simpa [List.get?_eq_getElem?] using hc
      refine ⟨{ name := c.name, data_type := c.data_type,
                is_nullable := c.is_nullable == "YES",
                column_default := c.column_default,
                is_primary_key :=
                  (db.pkCatalog schema table).contains c.name }, ?_, rfl, rfl,
        rfl, rfl, ?_⟩
      · simp [List.get?_eq_getElem?, List.getElem?_map, hc2]
      · simp

/-- The three-column catalog of public.users, witness input. -/
def usersCatalogW : List CatalogColumn :=
  [{ name := "id", data_type := "integer", is_nullable := "NO",
     column_default := none },
   { name := "name", data_type := "text", is_nullable := "YES",
     column_default := none },
   { name := "active", data_type := "boolean", is_nullable := "YES",
     column_default := some "true" }]

/-- An engine exposing the public.users catalog with primary key (id). -/
def dbUsersW : Db :=
  { execSql := fun _ => .ok [], tables := fun _ _ => [], tablesCatalog := [],
    columnsCatalog := fun _ _ => usersCatalogW,
    pkCatalog := fun _ _ => ["id"] }

/-- The descriptors fetch_columns produces for dbUsersW. -/
def usersColumnsW : List ColumnInfo :=
  [{ name := "id", data_type := "integer", is_nullable := false,
     column_default := none, is_primary_key := true },
   { name := "name", data_type := "text", is_nullable := true,
     column_default := none, is_primary_key := false },
   { name := "active", data_type := "boolean", is_nullable := true,
     column_default := some "true", is_primary_key := false }]

/-- Witness for C8 on the public.users scenario: three descriptors in ordinal
order, id flagged as primary key. -/
theorem C8_fetch_columns_pk_merge_witness :
    mgrActiveW.fetch_columns dbUsersW "public" "users" = .ok usersColumnsW ∧
    usersColumnsW.length = 3 ∧
    usersColumnsW.get? 0 = some ({ name := "id", data_type := "integer",
                                   is_nullable := false, column_default := none,
                                   is_primary_key := true } : ColumnInfo) := by
  have hws : mgrActiveW.fetch_columns dbUsersW "public" "users" =
      .ok usersColumnsW := rfl
  have h := C8_fetch_columns_pk_merge mgrActiveW dbUsersW "public" "users"
    usersColumnsW hws
  exact ⟨hws, h.1.trans rfl, rfl⟩

theorem wrap32_eq_self (n : Int) (h1 : -(2 ^ 31) ≤ n) (h2 : n < 2 ^ 31) :
    wrap32 n = n := by
  unfold wrap32
  have h3 : 0 ≤ n + 2 ^ 31 := by norm_num at h1 ⊢; linarith
  have h4 : n + 2 ^ 31 < 2 ^ 32 := by norm_num at h2 ⊢; linarith
  rw [Int.emod_eq_of_lt h3 h4]
  ring

theorem fetch_table_data_total (m : PostgresManager) (db : Db)
    (schema table : String) (page page_size : Int) (r : PaginatedResult)
    (h : m.fetch_table_data db schema table page page_size = .ok r) :
    r.total_count = Int.ofNat (db.tables schema table).length := by
  cases hp : m.pool with
  | none => simp [PostgresManager.fetch_table_data, hp] at h
  | some p =>
    simp only [PostgresManager.fetch_table_data, hp] at h
    cases hev : evalLimitOffset (db.tables schema table) page_size
        (wrap32 (wrap32 (page - 1) * page_size)) with
    | error e => rw [hev] at h; cases h
    | ok rows =>
      rw [hev] at h
      cases rows with
      | nil => cases h; rfl
      | cons f rest => cases h; rfl

theorem wrap32_congr (a b : Int) : wrap32 (wrap32 a * b) = wrap32 (a * b) := by
  have hdef : wrap32 a = a - 2 ^ 32 * ((a + 2 ^ 31) / 2 ^ 32) := by
    unfold wrap32
    rw [Int.emod_def]
    ring
  rw [hdef]
  have h1 : (a - 2 ^ 32 * ((a + 2 ^ 31) / 2 ^ 32)) * b
      = a * b - 2 ^ 32 * (((a + 2 ^ 31) / 2 ^ 32) * b) := by ring
  rw [h1]
  unfold wrap32
  have h2 : a * b - 2 ^ 32 * (((a + 2 ^ 31) / 2 ^ 32) * b) + 2 ^ 31
      = a * b + 2 ^ 31 + 2 ^ 32 * (-(((a + 2 ^ 31) / 2 ^ 32) * b)) := by ring
  rw [h2, Int.add_mul_emod_self_left]

/-- C2 (amended): every successful fetch_table_data call with page >= 1
returns at most page_size rows, the slice starting at the 32-bit
twos-complement wrap of (page-1)*page_size — which equals
(page-1)*page_size whenever that product lies in the i32 range — and a
total_count that is the full COUNT(*) of the table, independent of the
page. -/
theorem C2_fetch_table_data_pagination (m : PostgresManager) (db : Db)
    (schema table : String) (page page_size : Int) (r : PaginatedResult)
    (hpage1 : 1 ≤ page)
    (h : m.fetch_table_data db schema table page page_size = .ok r) :
    (r.rows.length : Int) ≤ page_size ∧
    r.rows = (((db.tables schema table).drop
        (wrap32 ((page - 1) * page_size)).toNat).take page_size.toNat).map
        row_to_json_values ∧
    (-(2 ^ 31) ≤ (page - 1) * page_size → (page - 1) * page_size < 2 ^ 31 →
      wrap32 ((page - 1) * page_size) = (page - 1) * page_size) ∧
    r.total_count = Int.ofNat (db.tables schema table).length := by
  have htot := fetch_table_data_total m db schema table page page_size r h
  have hcg := wrap32_congr (page - 1) page_size
  cases hp : m.pool with
  | none => simp [PostgresManager.fetch_table_data, hp] at h
  | some p =>
    simp only [PostgresManager.fetch_table_data, hp, hcg] at h
    rcases lt_or_le page_size 0 with hps | hps
    · simp only [evalLimitOffset, if_pos hps] at h
      cases h
    · rcases lt_or_le (wrap32 ((page - 1) * page_size)) 0 with hoff | hoff
      · simp only [evalLimitOffset, if_neg (not_lt.2 hps), if_pos hoff] at h
        cases h
      · simp only [evalLimitOffset, if_neg (not_lt.2 hps),
          if_neg (not_lt.2 hoff)] at h
        cases hsl : ((db.tables schema table).drop
            (wrap32 ((page - 1) * page_size)).toNat).take page_size.toNat with
        | nil =>
          rw [hsl] at h
          cases h
          exact ⟨by simpa using hps, by simp,
            fun h1 h2 => wrap32_eq_self _ h1 h2, htot⟩
        | cons f rest =>
          rw [hsl] at h
          cases h
          refine ⟨?_, rfl, fun h1 h2 => wrap32_eq_self _ h1 h2, htot⟩
          have hlen : (f :: rest).length ≤ page_size.toNat := by
            rw [← hsl]
            exact List.length_take_le _ _
          calc ((((f :: rest).map row_to_json_values).length : Int)) =
                ((f :: rest).length : Int) := by simp
            _ ≤ (page_size.toNat : Int) := by exact_mod_cast hlen
            _ = page_size := Int.toNat_of_nonneg hps

/-- A table holding exactly one row, used in the C2 counterexample. -/
def dbOneRowT : Db :=
  { execSql := fun _ => .ok [], tables := fun _ _ => [rowInt1W],
    tablesCatalog := [], columnsCatalog := fun _ _ => [],
    pkCatalog := fun _ _ => [] }

/-- Counterexample to C2 as stated: at page = 1073741825, page_size = 4 the
call succeeds and returns the single table row, because the i32 offset
computation wraps (page-1)*page_size = 2^32 to 0; a slice starting at offset
(page-1)*page_size itself would contain no rows. -/
theorem C2_fetch_table_data_pagination_counterexample :
    (mgrActiveW.fetch_table_data dbOneRowT "public" "users"
        1073741825 4).toOption.map (fun r => r.rows.length) = some 1 ∧
    ((((dbOneRowT.tables "public" "users").drop
        (((1073741825 - 1 : Int) * 4).toNat)).take ((4 : Int).toNat)).map
      row_to_json_values).length = 0 := by
  constructor <;> rfl

/-- An i32 cell holding 3, witness input. -/
def cellInt3W : PgCell :=
  { getBool := none, getI32 := some ⟨3, by norm_num⟩, getI64 := none,
    getF64 := none, getJson := none, getUuid := none, getString := none }

/-- A one-column INT4 row with value 3. -/
def rowInt3W : PgRow := { cols := [({ name := "id", typeName := "INT4" }, cellInt3W)] }

/-- A three-row table, witness input. -/
def dbThreeRowsT : Db :=
  { execSql := fun _ => .ok [],
    tables := fun _ _ => [rowInt1W, rowInt2W, rowInt3W],
    tablesCatalog := [], columnsCatalog := fun _ _ => [],
    pkCatalog := fun _ _ => [] }

/-- The page-2 result over dbThreeRowsT with page_size 1. -/
def prPage2W : PaginatedResult :=
  { columns := [{ name := "id", data_type := "INT4" }],
    rows := [[Json.num (JNum.int 2)]],
    total_count := 3, page := 2, page_size := 1 }

/-- Witness for the amended C2 at page 2, page_size 1 over a three-row
table: the slice starts at the wrapped offset, which here equals the exact
offset 1. -/
theorem C2_fetch_table_data_pagination_witness :
    (1 : Int) ≤ 2 ∧
    mgrActiveW.fetch_table_data dbThreeRowsT "public" "users" 2 1 =
      .ok prPage2W ∧
    ((prPage2W.rows.length : Int) ≤ 1 ∧
     prPage2W.rows = (((dbThreeRowsT.tables "public" "users").drop
         ((wrap32 (((2 : Int) - 1) * 1)).toNat)).take ((1 : Int).toNat)).map
         row_to_json_values ∧
     prPage2W.total_count =
       Int.ofNat (dbThreeRowsT.tables "public" "users").length) ∧
    wrap32 (((2 : Int) - 1) * 1) = ((2 : Int) - 1) * 1 := by
  have hws : mgrActiveW.fetch_table_data dbThreeRowsT "public" "users" 2 1 =
      .ok prPage2W := rfl
  have h := C2_fetch_table_data_pagination mgrActiveW dbThreeRowsT "public"
    "users" 2 1 prPage2W (by norm_num) hws
  exact ⟨by norm_num, hws, ⟨h.1, h.2.1, h.2.2.2⟩,
    h.2.2.1 (by norm_num) (by norm_num)⟩

/-- C9: explain_query wraps the statement in the ANALYZE/VERBOSE/BUFFERS/JSON
variant and expects one row whose sole column is the JSON plan; the command
reads planning_time and execution_time from top-level fields of the first
plan element and total_cost from the "Total Cost" field nested under its
"Plan" object, each optional: absence yields a missing value, not an
error. -/
theorem C9_explain_extraction (m : PostgresManager) (db : Db) (sql : String)
    (p : PoolId) (row : PgRow) (plan : Json)
    (hp : m.pool = some p)
    (hexec : db.execSql
      ("EXPLAIN (ANALYZE, FORMAT JSON, VERBOSE, BUFFERS) " ++ sql) = .ok [row])
    (hone : fetchOneJson [row] = .ok plan) :
    m.explain_query db sql = .ok plan ∧
    Commands.explain_query m db sql = .ok
      { plan := plan,
        planning_time :=
          ((plan.getIdx 0).bind (fun q => q.getKey "Planning Time")).bind
            Json.asF64,
        execution_time :=
          ((plan.getIdx 0).bind (fun q => q.getKey "Execution Time")).bind
            Json.asF64,
        total_cost :=
          (((plan.getIdx 0).bind (fun q => q.getKey "Plan")).bind
            (fun q => q.getKey "Total Cost")).bind Json.asF64 } ∧
    ((plan.getIdx 0).bind (fun q => q.getKey "Planning Time") = none →
      ∃ res, Commands.explain_query m db sql = .ok res ∧
        res.planning_time = none) := by
  have h1 : m.explain_query db sql = .ok plan := by
    simp only [PostgresManager.explain_query, hp, hexec, hone]
  have h2 : Commands.explain_query m db sql = .ok
      { plan := plan,
        planning_time :=
          ((plan.getIdx 0).bind (fun q => q.getKey "Planning Time")).bind
            Json.asF64,
        execution_time :=
          ((plan.getIdx 0).bind (fun q => q.getKey "Execution Time")).bind
            Json.asF64,
        total_cost :=
          (((plan.getIdx 0).bind (fun q => q.getKey "Plan")).bind
            (fun q => q.getKey "Total Cost")).bind Json.asF64 } := by
    simp only [Commands.explain_query, h1]
  refine ⟨h1, h2, ?_⟩
  intro habs
  exact ⟨_, h2, by simp [habs]⟩

/-- The structured plan used as witness input. -/
def planW : Json :=
  Json.arr [Json.obj [("Planning Time", Json.num (JNum.int 12)),
                      ("Execution Time", Json.num (JNum.int 34)),
                      ("Plan", Json.obj [("Total Cost", Json.num (JNum.int 56))])]]

/-- The sole JSON cell of the plan row. -/
def cellPlanW : PgCell :=
  { getBool := none, getI32 := none, getI64 := none, getF64 := none,
    getJson := some planW, getUuid := none, getString := none }

/-- The one-row, one-column EXPLAIN result row. -/
def rowPlanW : PgRow :=
  { cols := [({ name := "QUERY PLAN", typeName := "JSON" }, cellPlanW)] }

/-- An engine answering every statement with the single plan row. -/
def dbPlanW : Db :=
  { execSql := fun _ => .ok [rowPlanW], tables := fun _ _ => [],
    tablesCatalog := [], columnsCatalog := fun _ _ => [],
    pkCatalog := fun _ _ => [] }

/-- Witness for C9: timing and cost fields extracted from a concrete plan. -/
theorem C9_explain_extraction_witness :
    mgrActiveW.pool = some { id := 0 } ∧
    dbPlanW.execSql
      ("EXPLAIN (ANALYZE, FORMAT JSON, VERBOSE, BUFFERS) " ++ "SELECT 1") =
      .ok [rowPlanW] ∧
    fetchOneJson [rowPlanW] = .ok planW ∧
    Commands.explain_query mgrActiveW dbPlanW "SELECT 1" = .ok
      { plan := planW, planning_time := some (JNum.int 12),
        execution_time := some (JNum.int 34),
        total_cost := some (JNum.int 56) } := by
  have h := C9_explain_extraction mgrActiveW dbPlanW "SELECT 1" { id := 0 }
    rowPlanW planW rfl rfl rfl
  exact ⟨rfl, rfl, rfl, h.2.1⟩

/-- C10: explain_query_no_analyze returns the error string "Failed to parse
EXPLAIN output" whenever the wrapped non-executing EXPLAIN produces zero rows
or a first row with zero columns, and only when first row and first column
both exist returns that (marshalled) column as the raw plan. -/
theorem C10_no_analyze_parse_failure (m : PostgresManager) (db : Db)
    (sql : String) (p : PoolId) (hp : m.pool = some p) :
    (db.execSql ("EXPLAIN (FORMAT JSON, VERBOSE) " ++ sql) = .ok [] →
      Commands.explain_query_no_analyze m db sql =
        .error "Failed to parse EXPLAIN output") ∧
    (∀ row rest, db.execSql ("EXPLAIN (FORMAT JSON, VERBOSE) " ++ sql) =
        .ok (row :: rest) → row.cols = [] →
      Commands.explain_query_no_analyze m db sql =
        .error "Failed to parse EXPLAIN output") ∧
    (∀ row rest pc pcs, db.execSql ("EXPLAIN (FORMAT JSON, VERBOSE) " ++ sql) =
        .ok (row :: rest) → row.cols = pc :: pcs →
      Commands.explain_query_no_analyze m db sql =
        .ok (coerceValue pc.fst.typeName pc.snd)) := by
  refine ⟨?_, ?_, ?_⟩
  · intro hq
    rw [Commands.explain_query_no_analyze,
      execute_query_ok_nil m db _ p hp hq]
    rfl
  · intro row rest hq hcols
    rw [Commands.explain_query_no_analyze,
      execute_query_ok_cons m db _ p row rest hp hq]
    simp [row_to_json_values, hcols]
  · intro row rest pc pcs hq hcols
    rw [Commands.explain_query_no_analyze,
      execute_query_ok_cons m db _ p row rest hp hq]
    simp [row_to_json_values, hcols]

/-- Witness for C10: with one plan row of one JSON column, the command
returns the marshalled plan. -/
theorem C10_no_analyze_parse_failure_witness :
    dbPlanW.execSql ("EXPLAIN (FORMAT JSON, VERBOSE) " ++ "SELECT 1") =
      .ok [rowPlanW] ∧
    rowPlanW.cols =
      [({ name := "QUERY PLAN", typeName := "JSON" }, cellPlanW)] ∧
    Commands.explain_query_no_analyze mgrActiveW dbPlanW "SELECT 1" =
      .ok planW := by
  have h := C10_no_analyze_parse_failure mgrActiveW dbPlanW "SELECT 1"
    { id := 0 } rfl
  exact ⟨rfl, rfl, h.2.2 rowPlanW []
    ({ name := "QUERY PLAN", typeName := "JSON" }, cellPlanW) [] rfl rfl⟩
